import Mathlib

/-!
Shallow embedding of the snake game core from `src/main.py`:
the `Direction`, `Coordinate`, `Grid` and `Snake` classes and their
operations (`opposite`, `Coordinate.advance`, `in_bound`, `new_apple`,
`change_direction`, `Snake.advance`), with theorems checking the
specification's claims against them.

Python's `random.choice(empty)` is modelled by an explicit chooser
function `pick : List Coordinate → Option Coordinate`; a chooser is
faithful to `random.choice` exactly when every value it returns is an
element of the list it was given (`ValidPick`), which also forces it to
return `none` on `[]`, where `random.choice` raises. Theorems about all
possible random outcomes quantify over all valid choosers.
-/

/-- `class Direction(Enum)` from `src/main.py`. -/
inductive Direction where
  | UP
  | DOWN
  | LEFT
  | RIGHT
deriving DecidableEq, Repr

/-- `Direction.opposite` from `src/main.py`. -/
def Direction.opposite : Direction → Direction
  | .UP => .DOWN
  | .DOWN => .UP
  | .LEFT => .RIGHT
  | .RIGHT => .LEFT

/-- `@dataclass class Coordinate` from `src/main.py`. -/
structure Coordinate where
  x : Int
  y : Int
deriving DecidableEq, Repr

/-- `Coordinate.advance` from `src/main.py`: the in-place mutation of the
dataclass is rendered as a pure function returning the stepped coordinate. -/
def Coordinate.advance (c : Coordinate) : Direction → Coordinate
  | .UP => ⟨c.x, c.y - 1⟩
  | .DOWN => ⟨c.x, c.y + 1⟩
  | .LEFT => ⟨c.x - 1, c.y⟩
  | .RIGHT => ⟨c.x + 1, c.y⟩

/-- `@dataclass class Grid` from `src/main.py` (drawing methods omitted:
they only touch the pygame surface). -/
structure Grid where
  width : Int
  height : Int
deriving DecidableEq, Repr

/-- The dataclass constructor of `Grid`: it stores the two fields and has
no validation whatsoever, so it cannot fail; the `Except` codomain makes
the absence of a failure path statable. -/
def Grid.make (w h : Int) : Except String Grid :=
  .ok ⟨w, h⟩

/-- `Grid.in_bound` from `src/main.py`. -/
def Grid.in_bound (g : Grid) (c : Coordinate) : Bool :=
  0 ≤ c.x && c.x < g.width && 0 ≤ c.y && c.y < g.height

/-- The list comprehension over `numpy.ndindex((width, height))` in
`Snake.new_apple`: all `width * height` grid cells, first index (x) major,
matching numpy's row-major iteration order. Negative dimensions yield no
cells, as `range` of a non-positive bound is empty. -/
def Grid.coordinates (g : Grid) : List Coordinate :=
  (List.range g.width.toNat).flatMap fun i =>
    (List.range g.height.toNat).map fun j => ⟨Int.ofNat i, Int.ofNat j⟩

/-- The `empty` list built inside `Snake.new_apple`: grid cells not
occupied by any current segment. -/
def emptyCells (g : Grid) (segments : List Coordinate) : List Coordinate :=
  g.coordinates.filter fun c => !(decide (c ∈ segments))

/-- The state of a `Snake` object from `src/main.py`: its four instance
attributes `segments`, `grid`, `direction`, `apple`. -/
structure Snake where
  segments : List Coordinate
  grid : Grid
  direction : Direction
  apple : Coordinate
deriving DecidableEq, Repr

/-- A chooser models `random.choice`: anything it returns comes from the
list it was given, and it only fails on `[]`, where `random.choice`
raises `IndexError`. -/
def ValidPick (pick : List Coordinate → Option Coordinate) : Prop :=
  (∀ l a, pick l = some a → a ∈ l) ∧ (∀ l, pick l = none → l = [])

/-- `Snake.new_apple` from `src/main.py`, with `random.choice` replaced by
the explicit chooser `pick`: build the list of unoccupied cells and choose
one of them. -/
def Snake.new_apple (pick : List Coordinate → Option Coordinate)
    (g : Grid) (segments : List Coordinate) : Option Coordinate :=
  pick (emptyCells g segments)

/-- `Snake.__init__` from `src/main.py`: the fixed three-segment body,
heading `DOWN`, then `new_apple`; `none` when `new_apple` fails. -/
def Snake.init (pick : List Coordinate → Option Coordinate) (g : Grid) :
    Option Snake :=
  match Snake.new_apple pick g [⟨0, 2⟩, ⟨0, 1⟩, ⟨0, 0⟩] with
  | none => none
  | some a =>
    some { segments := [⟨0, 2⟩, ⟨0, 1⟩, ⟨0, 0⟩], grid := g, direction := .DOWN, apple := a }

/-- `Snake.change_direction` from `src/main.py`. -/
def Snake.change_direction (s : Snake) (new : Direction) : Snake :=
  if new = s.direction.opposite then s else { s with direction := new }

/-- `Snake.advance` from `src/main.py`, with `random.choice` replaced by
the chooser `pick`. `none` models a raised exception (indexing `segments[0]`
of an empty body, or `choice` of an empty list); `some (b, s')` models the
method returning `b` with the object left in state `s'`. -/
def Snake.advance (pick : List Coordinate → Option Coordinate) (s : Snake) :
    Option (Bool × Snake) :=
  match s.segments with
  | [] => none
  | head :: _ =>
    let new := head.advance s.direction
    if s.grid.in_bound new = false ∨ new ∈ s.segments then
      some (false, s)
    else if new = s.apple then
      match Snake.new_apple pick s.grid s.segments with
      | none => none
      | some a => some (true, { s with segments := new :: s.segments, apple := a })
    else
      some (true, { s with segments := new :: s.segments.dropLast })

/-- The grid the program constructs in `main()`: `Grid(10, 10)`. -/
def mainGrid : Grid := ⟨10, 10⟩

/- ---------------------------------------------------------------- -/
/- Helper lemmas                                                     -/
/- ---------------------------------------------------------------- -/

theorem in_bound_iff (g : Grid) (c : Coordinate) :
    g.in_bound c = true ↔ 0 ≤ c.x ∧ c.x < g.width ∧ 0 ≤ c.y ∧ c.y < g.height := by
  simp [Grid.in_bound, and_assoc]

theorem mem_coordinates_iff (g : Grid) (c : Coordinate) :
    c ∈ g.coordinates ↔ g.in_bound c = true := by
  rw [in_bound_iff]
  unfold Grid.coordinates
  rw [List.mem_flatMap]
  constructor
  · rintro ⟨i, hi, hmem⟩
    rw [List.mem_range] at hi
    rw [List.mem_map] at hmem
    obtain ⟨j, hj, rfl⟩ := hmem
    rw [List.mem_range] at hj
    simp only [Int.ofNat_eq_coe]
    omega
  · obtain ⟨x, y⟩ := c
    rintro ⟨hx0, hxw, hy0, hyh⟩
    dsimp only at hx0 hxw hy0 hyh
    refine ⟨x.toNat, by rw [List.mem_range]; omega, ?_⟩
    rw [List.mem_map]
    refine ⟨y.toNat, by rw [List.mem_range]; omega, ?_⟩
    simp only [Coordinate.mk.injEq, Int.ofNat_eq_coe]
    omega

theorem length_coordinates (g : Grid) :
    g.coordinates.length = g.width.toNat * g.height.toNat := by
  unfold Grid.coordinates
  induction g.width.toNat with
  | zero => simp
  | succ n ih =>
      rw [List.range_succ, List.flatMap_append, List.length_append, ih]
      simp [Nat.succ_mul]

theorem mem_emptyCells_iff (g : Grid) (segments : List Coordinate) (c : Coordinate) :
    c ∈ emptyCells g segments ↔ g.in_bound c = true ∧ c ∉ segments := by
  simp [emptyCells, List.mem_filter, mem_coordinates_iff]

/-- `List.head?` as a chooser: always selects the first empty cell. -/
def firstPick : List Coordinate → Option Coordinate := List.head?

/-- A chooser that selects the second empty cell when there is one. -/
def secondPick (l : List Coordinate) : Option Coordinate := (l.drop 1).head?

theorem firstPick_valid : ValidPick firstPick := by
  constructor
  · intro l a h
    cases l with
    | nil => exact absurd h (by simp [firstPick])
    | cons x xs =>
        simp only [firstPick, List.head?_cons, Option.some.injEq] at h
        subst h
        exact List.mem_cons_self x xs
  · intro l h
    cases l with
    | nil => rfl
    | cons x xs => exact absurd h (by simp [firstPick])

/- Concrete states used to instantiate the theorems. -/

/-- A snake on the 10×10 grid used for direction-change instances. -/
def demoSnake : Snake := ⟨[⟨0, 2⟩, ⟨0, 1⟩, ⟨0, 0⟩], mainGrid, .DOWN, ⟨5, 5⟩⟩

/-- Head at the origin heading UP on the 10×10 grid: the candidate head
(0,-1) is out of bounds. -/
def edgeSnake : Snake := ⟨[⟨0, 0⟩, ⟨0, 1⟩, ⟨0, 2⟩], mainGrid, .UP, ⟨5, 5⟩⟩

/-- The segment list [(1,1),(1,0),(0,0)] heading UP: the candidate head
(1,0) is a current (middle) segment. -/
def collideSnake : Snake := ⟨[⟨1, 1⟩, ⟨1, 0⟩, ⟨0, 0⟩], mainGrid, .UP, ⟨5, 5⟩⟩

/-- Head (1,0) heading LEFT with tail (0,0): the candidate head is the
current tail cell. -/
def tailCollideSnake : Snake := ⟨[⟨1, 0⟩, ⟨1, 1⟩, ⟨0, 0⟩], mainGrid, .LEFT, ⟨5, 5⟩⟩

/- ---------------------------------------------------------------- -/
/- Claim theorems                                                    -/
/- ---------------------------------------------------------------- -/

/-- C9: `Direction.opposite` is total, pure and involutive, with UP
paired to DOWN and LEFT paired to RIGHT. -/
theorem opposite_involutive_pairs :
    (∀ d : Direction, d.opposite.opposite = d) ∧
    Direction.UP.opposite = Direction.DOWN ∧
    Direction.DOWN.opposite = Direction.UP ∧
    Direction.LEFT.opposite = Direction.RIGHT ∧
    Direction.RIGHT.opposite = Direction.LEFT := by
  refine ⟨fun d => ?_, rfl, rfl, rfl, rfl⟩
  cases d <;> rfl

/-- C5: `change_direction` is total; it sets the heading to the request
unless the request is the current heading's opposite, in which case the
state is unchanged; and the heading after the call is never the opposite
of the heading before the call. -/
theorem change_direction_spec (s : Snake) (d : Direction) :
    (d ≠ s.direction.opposite → (s.change_direction d).direction = d) ∧
    (d = s.direction.opposite → s.change_direction d = s) ∧
    (s.change_direction d).direction ≠ s.direction.opposite := by
  unfold Snake.change_direction
  by_cases h : d = s.direction.opposite
  · rw [if_pos h]
    refine ⟨fun hne => absurd h hne, fun _ => rfl, ?_⟩
    cases hd : s.direction <;> simp [hd, Direction.opposite]
  · rw [if_neg h]
    exact ⟨fun _ => rfl, fun he => absurd he h, h⟩

/-- C5 witness: a rejected reversal (UP against heading DOWN) leaves the
state unchanged, an accepted request (LEFT) sets the heading, and neither
outcome is the opposite of the old heading. -/
theorem change_direction_spec_witness :
    (demoSnake.change_direction .LEFT).direction = .LEFT ∧
    demoSnake.change_direction .UP = demoSnake ∧
    (demoSnake.change_direction .UP).direction ≠ demoSnake.direction.opposite :=
  ⟨(change_direction_spec demoSnake .LEFT).1 (by decide),
   (change_direction_spec demoSnake .UP).2.1 (by decide),
   (change_direction_spec demoSnake .UP).2.2⟩

/-- C6 counterexample: the `Grid` dataclass constructor performs no
validation, so construction with non-positive dimensions succeeds instead
of failing with InvalidConfig. -/
theorem grid_make_zero_succeeds : Grid.make 0 0 = Except.ok ⟨0, 0⟩ := rfl

/-- C6 amended: `Grid` construction never fails (no dimension check
exists in the code); the only grid the program constructs, `Grid(10, 10)`
in `main()`, does have positive dimensions. -/
theorem grid_make_total_and_main_positive :
    (∀ w h : Int, Grid.make w h = Except.ok ⟨w, h⟩) ∧
    0 < mainGrid.width ∧ 0 < mainGrid.height :=
  ⟨fun _ _ => rfl, by decide, by decide⟩

/-- C2: when the candidate new head is out of the grid's bounds,
`advance` returns false and leaves the state (segments, heading, food,
grid) unchanged. -/
theorem advance_out_of_bounds (pick : List Coordinate → Option Coordinate)
    (s : Snake) (head : Coordinate) (rest : List Coordinate)
    (hseg : s.segments = head :: rest)
    (hout : s.grid.in_bound (head.advance s.direction) = false) :
    Snake.advance pick s = some (false, s) := by
  unfold Snake.advance
  rw [hseg]
  simp [hout]

/-- C2 witness: on the 10×10 grid with head (0,0) and heading UP,
`advance` returns false and the state is unchanged. -/
theorem advance_out_of_bounds_witness :
    Snake.advance firstPick edgeSnake = some (false, edgeSnake) :=
  advance_out_of_bounds firstPick edgeSnake ⟨0, 0⟩ [⟨0, 1⟩, ⟨0, 2⟩] rfl (by decide)

/-- C3: when the candidate new head equals any element of the pre-move
segment list (the current tail included), `advance` returns false and
leaves the state unchanged. -/
theorem advance_self_collision (pick : List Coordinate → Option Coordinate)
    (s : Snake) (head : Coordinate) (rest : List Coordinate)
    (hseg : s.segments = head :: rest)
    (hmem : head.advance s.direction ∈ s.segments) :
    Snake.advance pick s = some (false, s) := by
  unfold Snake.advance
  rw [hseg] at hmem ⊢
  simp [hmem]

/-- C3 witness: segments [(1,1),(1,0),(0,0)] heading UP hit the middle
segment (1,0); segments [(1,0),(1,1),(0,0)] heading LEFT hit the current
tail (0,0); both calls return false with the state unchanged. -/
theorem advance_self_collision_witness :
    Snake.advance firstPick collideSnake = some (false, collideSnake) ∧
    Snake.advance firstPick tailCollideSnake = some (false, tailCollideSnake) :=
  ⟨advance_self_collision firstPick collideSnake ⟨1, 1⟩ [⟨1, 0⟩, ⟨0, 0⟩] rfl (by decide),
   advance_self_collision firstPick tailCollideSnake ⟨1, 0⟩ [⟨1, 1⟩, ⟨0, 0⟩] rfl (by decide)⟩

/-- Food directly below the head on the 10×10 grid: the next advance is a
growth move. -/
def growSnake : Snake := ⟨[⟨0, 2⟩, ⟨0, 1⟩, ⟨0, 0⟩], mainGrid, .DOWN, ⟨0, 3⟩⟩

/-- The state after the growth advance from `growSnake` under `firstPick`. -/
def growSnakeAfter : Snake := ⟨[⟨0, 3⟩, ⟨0, 2⟩, ⟨0, 1⟩, ⟨0, 0⟩], mainGrid, .DOWN, ⟨0, 3⟩⟩

/-- The state after the non-growth advance from `demoSnake`. -/
def demoSnakeAfter : Snake := ⟨[⟨0, 3⟩, ⟨0, 2⟩, ⟨0, 1⟩], mainGrid, .DOWN, ⟨5, 5⟩⟩

/-- C4: a successful advance whose candidate head misses the food drops
the tail and keeps the segment count; one whose candidate head equals the
food keeps the tail and grows the count by exactly 1. -/
theorem advance_length_spec (pick : List Coordinate → Option Coordinate)
    (s s' : Snake) (head : Coordinate) (rest : List Coordinate)
    (hseg : s.segments = head :: rest)
    (hadv : Snake.advance pick s = some (true, s')) :
    (head.advance s.direction ≠ s.apple →
      s'.segments = head.advance s.direction :: s.segments.dropLast ∧
      s'.segments.length = s.segments.length) ∧
    (head.advance s.direction = s.apple →
      s'.segments = head.advance s.direction :: s.segments ∧
      s'.segments.length = s.segments.length + 1) := by
  obtain ⟨segs, g, dir, ap⟩ := s
  dsimp only at hseg
  subst hseg
  unfold Snake.advance at hadv
  dsimp only at hadv ⊢
  by_cases hc : g.in_bound (head.advance dir) = false ∨ head.advance dir ∈ head :: rest
  · rw [if_pos hc] at hadv
    exact absurd hadv (by simp)
  · rw [if_neg hc] at hadv
    by_cases hg : head.advance dir = ap
    · rw [if_pos hg] at hadv
      cases hp : Snake.new_apple pick g (head :: rest) with
      | none =>
          rw [hp] at hadv
          exact absurd hadv (by simp)
      | some b =>
          rw [hp] at hadv
          simp only [Option.some.injEq, Prod.mk.injEq, true_and] at hadv
          subst hadv
          refine ⟨fun hne => absurd hg hne, fun _ => ⟨rfl, ?_⟩⟩
          simp
    · rw [if_neg hg] at hadv
      simp only [Option.some.injEq, Prod.mk.injEq, true_and] at hadv
      subst hadv
      refine ⟨fun _ => ⟨rfl, ?_⟩, fun he => absurd he hg⟩
      simp

/-- C4 witness: the non-growth advance from `demoSnake` keeps length 3
and drops the tail; the growth advance from `growSnake` keeps the tail
and grows to length 4. -/
theorem advance_length_spec_witness :
    (demoSnakeAfter.segments =
        Coordinate.advance ⟨0, 2⟩ Direction.DOWN :: demoSnake.segments.dropLast ∧
      demoSnakeAfter.segments.length = demoSnake.segments.length) ∧
    (growSnakeAfter.segments =
        Coordinate.advance ⟨0, 2⟩ Direction.DOWN :: growSnake.segments ∧
      growSnakeAfter.segments.length = growSnake.segments.length + 1) :=
  ⟨(advance_length_spec firstPick demoSnake demoSnakeAfter ⟨0, 2⟩ [⟨0, 1⟩, ⟨0, 0⟩]
      rfl rfl).1 (by decide),
   (advance_length_spec firstPick growSnake growSnakeAfter ⟨0, 2⟩ [⟨0, 1⟩, ⟨0, 0⟩]
      rfl rfl).2 (by decide)⟩

/-- C10: `advance` never changes the heading or the grid, and when the
candidate head is not the food the food is unchanged as well (only the
segment list is mutated). -/
theorem advance_frame (pick : List Coordinate → Option Coordinate)
    (s s' : Snake) (r : Bool) (head : Coordinate) (rest : List Coordinate)
    (hseg : s.segments = head :: rest)
    (hadv : Snake.advance pick s = some (r, s')) :
    s'.direction = s.direction ∧ s'.grid = s.grid ∧
    (head.advance s.direction ≠ s.apple → s'.apple = s.apple) := by
  obtain ⟨segs, g, dir, ap⟩ := s
  dsimp only at hseg
  subst hseg
  unfold Snake.advance at hadv
  dsimp only at hadv ⊢
  by_cases hc : g.in_bound (head.advance dir) = false ∨ head.advance dir ∈ head :: rest
  · rw [if_pos hc] at hadv
    simp only [Option.some.injEq, Prod.mk.injEq] at hadv
    obtain ⟨-, rfl⟩ := hadv
    exact ⟨rfl, rfl, fun _ => rfl⟩
  · rw [if_neg hc] at hadv
    by_cases hg : head.advance dir = ap
    · rw [if_pos hg] at hadv
      cases hp : Snake.new_apple pick g (head :: rest) with
      | none =>
          rw [hp] at hadv
          exact absurd hadv (by simp)
      | some b =>
          rw [hp] at hadv
          simp only [Option.some.injEq, Prod.mk.injEq] at hadv
          obtain ⟨-, rfl⟩ := hadv
          exact ⟨rfl, rfl, fun hne => absurd hg hne⟩
    · rw [if_neg hg] at hadv
      simp only [Option.some.injEq, Prod.mk.injEq] at hadv
      obtain ⟨-, rfl⟩ := hadv
      exact ⟨rfl, rfl, fun _ => rfl⟩

/-- C10 witness: the non-growth advance from `demoSnake` leaves heading,
grid and food untouched. -/
theorem advance_frame_witness :
    demoSnakeAfter.direction = demoSnake.direction ∧
    demoSnakeAfter.grid = demoSnake.grid ∧
    demoSnakeAfter.apple = demoSnake.apple := by
  have h := advance_frame firstPick demoSnake demoSnakeAfter true ⟨0, 2⟩
    [⟨0, 1⟩, ⟨0, 0⟩] rfl rfl
  exact ⟨h.1, h.2.1, h.2.2 (by decide)⟩

/-- C7: the food-placement routine enumerates all `width * height` grid
cells; every possible result is an in-bounds cell unoccupied by any
segment at call time; and when every in-bounds cell is occupied, the
routine fails. -/
theorem new_apple_spec :
    (∀ g : Grid, g.coordinates.length = g.width.toNat * g.height.toNat) ∧
    (∀ (pick : List Coordinate → Option Coordinate) (g : Grid)
        (segments : List Coordinate) (a : Coordinate), ValidPick pick →
      Snake.new_apple pick g segments = some a →
      g.in_bound a = true ∧ a ∉ segments) ∧
    (∀ (pick : List Coordinate → Option Coordinate) (g : Grid)
        (segments : List Coordinate), ValidPick pick →
      (∀ c, g.in_bound c = true → c ∈ segments) →
      Snake.new_apple pick g segments = none) := by
  refine ⟨length_coordinates, ?_, ?_⟩
  · intro pick g segments a hv h
    have hm := hv.1 _ _ h
    rw [mem_emptyCells_iff] at hm
    exact hm
  · intro pick g segments hv hall
    cases hp : Snake.new_apple pick g segments with
    | none => rfl
    | some a =>
        have hm := hv.1 _ _ hp
        rw [mem_emptyCells_iff] at hm
        exact absurd (hall a hm.1) hm.2

/-- Three cells that fully occupy the 1×3 grid. -/
def fullBody : List Coordinate := [⟨0, 0⟩, ⟨0, 1⟩, ⟨0, 2⟩]

theorem fullBody_covers (c : Coordinate) :
    Grid.in_bound ⟨1, 3⟩ c = true → c ∈ fullBody := by
  obtain ⟨x, y⟩ := c
  rw [in_bound_iff]
  rintro ⟨hx0, hxw, hy0, hyh⟩
  dsimp only at hx0 hxw hy0 hyh
  have hx : x = 0 := by omega
  have hy : y = 0 ∨ y = 1 ∨ y = 2 := by omega
  subst hx
  rcases hy with rfl | rfl | rfl <;> simp [fullBody]

/-- C7 witness: on the 10×10 grid with body `fullBody` the first choice
(0,3) is in bounds and unoccupied; on the fully occupied 1×3 grid the
routine fails. -/
theorem new_apple_spec_witness :
    (mainGrid.in_bound ⟨0, 3⟩ = true ∧ (⟨0, 3⟩ : Coordinate) ∉ fullBody) ∧
    Snake.new_apple firstPick ⟨1, 3⟩ fullBody = none :=
  ⟨new_apple_spec.2.1 firstPick mainGrid fullBody ⟨0, 3⟩ firstPick_valid rfl,
   new_apple_spec.2.2 firstPick ⟨1, 3⟩ fullBody firstPick_valid fullBody_covers⟩

/-- C8: a freshly constructed snake has segments [(0,2),(0,1),(0,0)] and
heading DOWN; on the 10×10 grid, if the food is not at (0,3), one advance
returns true and yields segments [(0,3),(0,2),(0,1)] of length 3. -/
theorem init_and_first_advance (pick pick2 : List Coordinate → Option Coordinate)
    (s : Snake) (hinit : Snake.init pick mainGrid = some s) :
    s.segments = [⟨0, 2⟩, ⟨0, 1⟩, ⟨0, 0⟩] ∧ s.direction = .DOWN ∧
    (s.apple ≠ ⟨0, 3⟩ →
      Snake.advance pick2 s =
        some (true, { s with segments := [⟨0, 3⟩, ⟨0, 2⟩, ⟨0, 1⟩] }) ∧
      ([⟨0, 3⟩, ⟨0, 2⟩, ⟨0, 1⟩] : List Coordinate).length = 3) := by
  unfold Snake.init at hinit
  cases hp : Snake.new_apple pick mainGrid [⟨0, 2⟩, ⟨0, 1⟩, ⟨0, 0⟩] with
  | none =>
      rw [hp] at hinit
      exact absurd hinit (by simp)
  | some a =>
      rw [hp] at hinit
      simp only [Option.some.injEq] at hinit
      subst hinit
      refine ⟨rfl, rfl, fun hne => ⟨?_, rfl⟩⟩
      have hr : Snake.advance pick2
          (⟨[⟨0, 2⟩, ⟨0, 1⟩, ⟨0, 0⟩], mainGrid, .DOWN, a⟩ : Snake) =
          if (⟨0, 3⟩ : Coordinate) = a then
            (match Snake.new_apple pick2 mainGrid [⟨0, 2⟩, ⟨0, 1⟩, ⟨0, 0⟩] with
             | none => none
             | some b =>
                 some (true,
                   (⟨[⟨0, 3⟩, ⟨0, 2⟩, ⟨0, 1⟩, ⟨0, 0⟩], mainGrid, .DOWN, b⟩ : Snake)))
          else some (true, (⟨[⟨0, 3⟩, ⟨0, 2⟩, ⟨0, 1⟩], mainGrid, .DOWN, a⟩ : Snake)) := rfl
      rw [hr, if_neg fun h => hne h.symm]

/-- The state produced by `Snake.init` on the 10×10 grid with the
second-cell chooser: the food lands at (0,4). -/
def initDemo : Snake := ⟨[⟨0, 2⟩, ⟨0, 1⟩, ⟨0, 0⟩], mainGrid, .DOWN, ⟨0, 4⟩⟩

/-- C8 witness: `Snake.init` with the second-cell chooser yields the
documented body, heading and food (0,4) ≠ (0,3); the first advance then
produces segments [(0,3),(0,2),(0,1)]. -/
theorem init_and_first_advance_witness :
    initDemo.segments = [⟨0, 2⟩, ⟨0, 1⟩, ⟨0, 0⟩] ∧ initDemo.direction = .DOWN ∧
    (Snake.advance firstPick initDemo =
        some (true, { initDemo with segments := [⟨0, 3⟩, ⟨0, 2⟩, ⟨0, 1⟩] }) ∧
      ([⟨0, 3⟩, ⟨0, 2⟩, ⟨0, 1⟩] : List Coordinate).length = 3) := by
  have h := init_and_first_advance secondPick firstPick initDemo rfl
  exact ⟨h.1, h.2.1, h.2.2 (by decide)⟩

/-- The 2×2 trap: the snake occupies three cells, the food sits in the
fourth cell (0,0), and the head (0,1) is about to step UP onto it. -/
def trapSnake : Snake := ⟨[⟨0, 1⟩, ⟨1, 1⟩, ⟨1, 0⟩], ⟨2, 2⟩, .UP, ⟨0, 0⟩⟩

/-- The state after the growth advance from `trapSnake`: the new food
(0,0) coincides with the newly inserted head. -/
def trapSnakeAfter : Snake := ⟨[⟨0, 0⟩, ⟨0, 1⟩, ⟨1, 1⟩, ⟨1, 0⟩], ⟨2, 2⟩, .UP, ⟨0, 0⟩⟩

/-- C1 is violated by the code: `advance` runs `new_apple` before
inserting the new head, so the cell just vacated by the food is still
offered to `choice`. From `trapSnake`, for every faithful model of
`random.choice`, the growth advance succeeds and leaves the food equal to
the new head — an element of the post-move segments. -/
theorem growth_places_apple_on_head (pick : List Coordinate → Option Coordinate)
    (hpick : ValidPick pick) :
    Snake.advance pick trapSnake = some (true, trapSnakeAfter) ∧
    trapSnakeAfter.segments.head? = some trapSnakeAfter.apple ∧
    trapSnakeAfter.apple ∈ trapSnakeAfter.segments := by
  refine ⟨?_, rfl, by decide⟩
  have hr : Snake.advance pick trapSnake =
      (match pick [(⟨0, 0⟩ : Coordinate)] with
       | none => none
       | some b =>
           some (true, (⟨[⟨0, 0⟩, ⟨0, 1⟩, ⟨1, 1⟩, ⟨1, 0⟩], ⟨2, 2⟩, .UP, b⟩ : Snake))) := rfl
  rw [hr]
  cases hp : pick [(⟨0, 0⟩ : Coordinate)] with
  | none => exact absurd (hpick.2 _ hp) (by simp)
  | some b =>
      have hb := hpick.1 _ _ hp
      simp only [List.mem_singleton] at hb
      subst hb
      rfl

/-- C1 witness: with the first-cell chooser the growth advance from
`trapSnake` ends with the food on the new head. -/
theorem growth_places_apple_on_head_witness :
    Snake.advance firstPick trapSnake = some (true, trapSnakeAfter) ∧
    trapSnakeAfter.segments.head? = some trapSnakeAfter.apple ∧
    trapSnakeAfter.apple ∈ trapSnakeAfter.segments :=
  growth_places_apple_on_head firstPick firstPick_valid
